import Mathlib

/-!
Verification of the xxHash engine (src/xxhash.c) against its specification.

Shallow embedding conventions:
* Machine integers (U32 / U64) are `Nat` values kept below `2^32` / `2^64`;
  every C operation that can wrap is followed by an explicit `% 2^32` or
  `% 2^64`, mirroring unsigned overflow semantics.
* Byte buffers are `List Nat` (each element a byte value `< 256`); a C read
  past the end of a buffer (which the alternate-family streaming update can
  perform, see `XXHa_streamLoop`) is modelled as reading the byte `0`.
* The host is little-endian and portable mode is in effect
  (`XXH_FORCE_NATIVE_FORMAT == 0`), so `XXH_readLE32`/`XXH_readLE64` are
  plain little-endian reads and the `endian` parameter of the C code is
  specialised to `XXH_littleEndian` throughout.  On such a host an aligned
  native load and the `memcpy`-based unaligned load of §4.2 read the same
  little-endian value; the aligned/unaligned loop variants of the C code are
  nevertheless kept as separate definitions so their equality is a theorem.
* `XXH_swap32`/`XXH_swap64` model `__builtin_bswap32/64` (the variant the
  source selects for GCC >= 4.3) by their byte-reversal semantics.
-/

/-! ## Prime constants (src/xxhash.c lines 309-313, 915-919) -/

def PRIME32_1 : Nat := 2654435761
def PRIME32_2 : Nat := 2246822519
def PRIME32_3 : Nat := 3266489917
def PRIME32_4 : Nat := 668265263
def PRIME32_5 : Nat := 374761393

def PRIME64_1 : Nat := 11400714785074694791
def PRIME64_2 : Nat := 14029467366897019727
def PRIME64_3 : Nat := 1609587929392839161
def PRIME64_4 : Nat := 9650029242287828579
def PRIME64_5 : Nat := 2870177450012600261

/-! ## Rotates, byte swaps and little-endian reads -/

/-- XXH_rotl32: `(x << r) | (x >> (32 - r))` on U32 (0 < r < 32, x < 2^32). -/
def XXH_rotl32 (x r : Nat) : Nat := ((x <<< r) % 2^32) ||| (x >>> (32 - r))

/-- XXH_rotl64: `(x << r) | (x >> (64 - r))` on U64 (0 < r < 64, x < 2^64). -/
def XXH_rotl64 (x r : Nat) : Nat := ((x <<< r) % 2^64) ||| (x >>> (64 - r))

/-- XXH_swap32, modelled by the byte-reversal semantics of
`__builtin_bswap32` (the source's selected implementation). -/
def XXH_swap32 (x : Nat) : Nat :=
  (x % 256) * 2^24 + (x / 2^8 % 256) * 2^16 + (x / 2^16 % 256) * 2^8 + (x / 2^24 % 256)

/-- XXH_swap64, modelled by the byte-reversal semantics of
`__builtin_bswap64`. -/
def XXH_swap64 (x : Nat) : Nat :=
  (x % 256) * 2^56 + (x / 2^8 % 256) * 2^48 + (x / 2^16 % 256) * 2^40 +
  (x / 2^24 % 256) * 2^32 + (x / 2^32 % 256) * 2^24 + (x / 2^40 % 256) * 2^16 +
  (x / 2^48 % 256) * 2^8 + (x / 2^56 % 256)

/-- Byte `i` of buffer `l`; out-of-range reads yield 0 (see file header). -/
def byteAt (l : List Nat) (i : Nat) : Nat := l.getD i 0

/-- Little-endian assembly of four bytes into a U32 value. -/
def XXH_bytes4 (b0 b1 b2 b3 : Nat) : Nat := b0 + b1 * 2^8 + b2 * 2^16 + b3 * 2^24

/-- Little-endian assembly of eight bytes into a U64 value. -/
def XXH_bytes8 (b0 b1 b2 b3 b4 b5 b6 b7 : Nat) : Nat :=
  XXH_bytes4 b0 b1 b2 b3 + XXH_bytes4 b4 b5 b6 b7 * 2^32

/-- XXH_readLE32 at byte offset `i` of buffer `l` (little-endian host). -/
def XXH_readLE32 (l : List Nat) (i : Nat) : Nat :=
  XXH_bytes4 (byteAt l i) (byteAt l (i+1)) (byteAt l (i+2)) (byteAt l (i+3))

/-- XXH_readLE64 at byte offset `i` of buffer `l` (little-endian host). -/
def XXH_readLE64 (l : List Nat) (i : Nat) : Nat :=
  XXH_bytes8 (byteAt l i) (byteAt l (i+1)) (byteAt l (i+2)) (byteAt l (i+3))
    (byteAt l (i+4)) (byteAt l (i+5)) (byteAt l (i+6)) (byteAt l (i+7))

/-! ## Canonical representation (lines 814-824 and 1345-1355) -/

/-- XXH32_canonicalFromHash: on a little-endian host the hash is byte-swapped
and then `memcpy`ed, so the stored bytes are the big-endian representation.
The result models the 4 bytes of `XXH32_canonical_t`. -/
def XXH32_canonicalFromHash (h : Nat) : List Nat :=
  let x := XXH_swap32 (h % 2^32)
  [x % 256, x / 2^8 % 256, x / 2^16 % 256, x / 2^24 % 256]

/-- XXH32_hashFromCanonical = XXH_readBE32, which on a little-endian host is
`XXH_swap32(XXH_read32(src))`. -/
def XXH32_hashFromCanonical (c : List Nat) : Nat := XXH_swap32 (XXH_readLE32 c 0)

/-- XXH64_canonicalFromHash (8 canonical bytes, big-endian). -/
def XXH64_canonicalFromHash (h : Nat) : List Nat :=
  let x := XXH_swap64 (h % 2^64)
  [x % 256, x / 2^8 % 256, x / 2^16 % 256, x / 2^24 % 256,
   x / 2^32 % 256, x / 2^40 % 256, x / 2^48 % 256, x / 2^56 % 256]

/-- XXH64_hashFromCanonical = XXH_readBE64 on a little-endian host. -/
def XXH64_hashFromCanonical (c : List Nat) : Nat := XXH_swap64 (XXH_readLE64 c 0)

/-! ## Mixing primitives (lines 315-353, 921-949) -/

/-- XXH32_round: `seed += input * PRIME32_2; seed = rotl(seed,13); seed *= PRIME32_1`. -/
def XXH32_round (seed input : Nat) : Nat :=
  (XXH_rotl32 ((seed + input * PRIME32_2) % 2^32) 13 * PRIME32_1) % 2^32

/-- XXH32_avalanche: the final 32-bit bit-diffusion stage. -/
def XXH32_avalanche (h : Nat) : Nat :=
  let h1 := h ^^^ (h >>> 15)
  let h2 := (h1 * PRIME32_2) % 2^32
  let h3 := h2 ^^^ (h2 >>> 13)
  let h4 := (h3 * PRIME32_3) % 2^32
  h4 ^^^ (h4 >>> 16)

/-- XXH64_round: `acc += input * PRIME64_2; acc = rotl(acc,31); acc *= PRIME64_1`. -/
def XXH64_round (acc input : Nat) : Nat :=
  (XXH_rotl64 ((acc + input * PRIME64_2) % 2^64) 31 * PRIME64_1) % 2^64

/-- XXH64_mergeRound: fold an off-lane value into the running accumulator. -/
def XXH64_mergeRound (acc val : Nat) : Nat :=
  ((acc ^^^ XXH64_round 0 val) * PRIME64_1 + PRIME64_4) % 2^64

/-- XXH64_avalanche: the final 64-bit bit-diffusion stage. -/
def XXH64_avalanche (h : Nat) : Nat :=
  let h1 := h ^^^ (h >>> 33)
  let h2 := (h1 * PRIME64_2) % 2^64
  let h3 := h2 ^^^ (h2 >>> 29)
  let h4 := (h3 * PRIME64_3) % 2^64
  h4 ^^^ (h4 >>> 32)

/-! ## Finalizers (XXH32_finalize lines 448-539, XXH64_finalize lines 954-1061)

The C switch on `len & 31` performs `len/4` PROCESS4 steps and `len%4`
PROCESS1 steps (32-bit), resp. `len/8` PROCESS8, then one PROCESS4 if four
bytes remain, then single bytes (64-bit), and always ends in the avalanche.
At every call site `len & 31` equals the length of the tail buffer, so the
finalizer is driven by the tail list itself. -/

/-- PROCESS4 of XXH32_finalize. -/
def XXH32_process4 (h inp : Nat) : Nat :=
  (XXH_rotl32 ((h + inp * PRIME32_3) % 2^32) 17 * PRIME32_4) % 2^32

/-- PROCESS1 of XXH32_finalize. -/
def XXH32_process1 (h b : Nat) : Nat :=
  (XXH_rotl32 ((h + b * PRIME32_5) % 2^32) 11 * PRIME32_1) % 2^32

/-- XXH32_finalize over the tail bytes. -/
def XXH32_finalize (h : Nat) : List Nat → Nat
  | b0 :: b1 :: b2 :: b3 :: rest =>
      XXH32_finalize (XXH32_process4 h (XXH_bytes4 b0 b1 b2 b3)) rest
  | rest => XXH32_avalanche (rest.foldl XXH32_process1 h)

/-- PROCESS8_64 of XXH64_finalize. -/
def XXH64_process8 (h inp : Nat) : Nat :=
  (XXH_rotl64 (h ^^^ XXH64_round 0 inp) 27 * PRIME64_1 + PRIME64_4) % 2^64

/-- PROCESS4_64 of XXH64_finalize. -/
def XXH64_process4 (h inp : Nat) : Nat :=
  (XXH_rotl64 (h ^^^ (inp * PRIME64_1) % 2^64) 23 * PRIME64_2 + PRIME64_3) % 2^64

/-- PROCESS1_64 of XXH64_finalize. -/
def XXH64_process1 (h b : Nat) : Nat :=
  (XXH_rotl64 (h ^^^ (b * PRIME64_5) % 2^64) 11 * PRIME64_1) % 2^64

/-- XXH64_finalize over the tail bytes. -/
def XXH64_finalize (h : Nat) : List Nat → Nat
  | b0 :: b1 :: b2 :: b3 :: b4 :: b5 :: b6 :: b7 :: rest =>
      XXH64_finalize (XXH64_process8 h (XXH_bytes8 b0 b1 b2 b3 b4 b5 b6 b7)) rest
  | b0 :: b1 :: b2 :: b3 :: rest =>
      XXH64_avalanche (rest.foldl XXH64_process1 (XXH64_process4 h (XXH_bytes4 b0 b1 b2 b3)))
  | rest => XXH64_avalanche (rest.foldl XXH64_process1 h)

/-! ## 32-bit block engine (XXH32_endian_align lines 592-625)

Block loops are written with an explicit fuel argument so that they are
structurally recursive (hence kernel-reducible); callers pass
`l.length + 1`, which always suffices since every iteration consumes 16
(resp. 32) bytes. -/

/-- The four accumulator lanes of the 32-bit families. -/
structure XXH32_acc where
  v1 : Nat
  v2 : Nat
  v3 : Nat
  v4 : Nat
deriving DecidableEq

/-- One 16-byte block step of the unaligned 32-bit loop (lines 609-614):
four `XXH_get32bits` reads at offsets 0,4,8,12. -/
def XXH32_roundBlock (a : XXH32_acc) (l : List Nat) : XXH32_acc :=
  { v1 := XXH32_round a.v1 (XXH_readLE32 l 0)
    v2 := XXH32_round a.v2 (XXH_readLE32 l 4)
    v3 := XXH32_round a.v3 (XXH_readLE32 l 8)
    v4 := XXH32_round a.v4 (XXH_readLE32 l 12) }

/-- One 16-byte block step of the aligned 32-bit loop (lines 601-607):
`palign[0..3]` native 4-byte loads, which on the little-endian host read the
same little-endian values as `XXH_get32bits`. -/
def XXH32_roundBlockAligned (a : XXH32_acc) (l : List Nat) : XXH32_acc :=
  { v1 := XXH32_round a.v1 (XXH_readLE32 l 0)
    v2 := XXH32_round a.v2 (XXH_readLE32 l 4)
    v3 := XXH32_round a.v3 (XXH_readLE32 l 8)
    v4 := XXH32_round a.v4 (XXH_readLE32 l 12) }

/-- The unaligned 32-bit block loop: consume 16-byte blocks while at least 16
bytes remain, returning the lanes and the remaining tail. -/
def XXH32_blocks : Nat → XXH32_acc → List Nat → XXH32_acc × List Nat
  | 0, a, l => (a, l)
  | f + 1, a, l =>
      if 16 ≤ l.length then XXH32_blocks f (XXH32_roundBlock a l) (l.drop 16) else (a, l)

/-- The aligned 32-bit block loop (same bounds, aligned loads). -/
def XXH32_blocksAligned : Nat → XXH32_acc → List Nat → XXH32_acc × List Nat
  | 0, a, l => (a, l)
  | f + 1, a, l =>
      if 16 ≤ l.length then XXH32_blocksAligned f (XXH32_roundBlockAligned a l) (l.drop 16) else (a, l)

/-- The alignment axis of the memory-read abstraction. -/
inductive XXH_alignment where
  | aligned
  | unaligned
deriving DecidableEq

/-- Test used for the loop selection `align==XXH_aligned`. -/
def alignedFlag : XXH_alignment → Bool
  | XXH_alignment.aligned => true
  | XXH_alignment.unaligned => false

/-- Lane initialisation of the 32-bit block path (lines 593-596). -/
def XXH32_initAcc (seed : Nat) : XXH32_acc :=
  { v1 := (seed + PRIME32_1 + PRIME32_2) % 2^32
    v2 := (seed + PRIME32_2) % 2^32
    v3 := seed % 2^32
    v4 := (seed + (2^32 - PRIME32_1)) % 2^32 }

/-- Block phase of XXH32_endian_align: lanes and remaining tail after the
block loop; the aligned loop is chosen when `XXH_FORCE_ALIGN_CHECK` is set
and `align==XXH_aligned` (line 600). -/
def XXH32_split (ac : Bool) (al : XXH_alignment) (input : List Nat) (seed : Nat) :
    XXH32_acc × List Nat :=
  if ac && alignedFlag al then
    XXH32_blocksAligned (input.length + 1) (XXH32_initAcc seed) input
  else
    XXH32_blocks (input.length + 1) (XXH32_initAcc seed) input

/-- The `h32` value of XXH32_endian_align just before `h32 += (U32)len`. -/
def XXH32_blockPart (ac : Bool) (al : XXH_alignment) (input : List Nat) (seed : Nat) : Nat :=
  if 16 ≤ input.length then
    let a := (XXH32_split ac al input seed).1
    (XXH_rotl32 a.v1 1 + XXH_rotl32 a.v2 7 + XXH_rotl32 a.v3 12 + XXH_rotl32 a.v4 18) % 2^32
  else
    (seed + PRIME32_5) % 2^32

/-- The tail handed to XXH32_finalize (`len & 15` bytes at `p`). -/
def XXH32_tailBytes (ac : Bool) (al : XXH_alignment) (input : List Nat) (seed : Nat) : List Nat :=
  if 16 ≤ input.length then (XXH32_split ac al input seed).2 else input

/-- XXH32_endian_align (portable little-endian mode). -/
def XXH32_endian_align (ac : Bool) (al : XXH_alignment) (input : List Nat) (seed : Nat) : Nat :=
  XXH32_finalize ((XXH32_blockPart ac al input seed + input.length % 2^32) % 2^32)
    (XXH32_tailBytes ac al input seed)

/-- XXH32 public one-shot (lines 627-650): `ac` models
`XXH_FORCE_ALIGN_CHECK`, `pa` models `((size_t)input & 3) == 0`. -/
def XXH32 (ac pa : Bool) (input : List Nat) (seed : Nat) : Nat :=
  XXH32_endian_align ac (if ac && pa then XXH_alignment.aligned else XXH_alignment.unaligned)
    input seed

/-! ## 64-bit block engine (XXH64_endian_align lines 1063-1169) -/

/-- The four accumulator lanes of the 64-bit family. -/
structure XXH64_acc where
  v1 : Nat
  v2 : Nat
  v3 : Nat
  v4 : Nat
deriving DecidableEq

/-- One 32-byte block step of the unaligned 64-bit loop (lines 1148-1153). -/
def XXH64_roundBlock (a : XXH64_acc) (l : List Nat) : XXH64_acc :=
  { v1 := XXH64_round a.v1 (XXH_readLE64 l 0)
    v2 := XXH64_round a.v2 (XXH_readLE64 l 8)
    v3 := XXH64_round a.v3 (XXH_readLE64 l 16)
    v4 := XXH64_round a.v4 (XXH_readLE64 l 24) }

/-- One 32-byte block step of the aligned 64-bit loop (lines 1139-1145):
`inp[0..3]` native 8-byte loads, same little-endian values on this host. -/
def XXH64_roundBlockAligned (a : XXH64_acc) (l : List Nat) : XXH64_acc :=
  { v1 := XXH64_round a.v1 (XXH_readLE64 l 0)
    v2 := XXH64_round a.v2 (XXH_readLE64 l 8)
    v3 := XXH64_round a.v3 (XXH_readLE64 l 16)
    v4 := XXH64_round a.v4 (XXH_readLE64 l 24) }

/-- The unaligned 64-bit block loop: consume 32-byte blocks while at least 32
bytes remain. -/
def XXH64_blocks : Nat → XXH64_acc → List Nat → XXH64_acc × List Nat
  | 0, a, l => (a, l)
  | f + 1, a, l =>
      if 32 ≤ l.length then XXH64_blocks f (XXH64_roundBlock a l) (l.drop 32) else (a, l)

/-- The aligned 64-bit block loop (same bounds, aligned loads). -/
def XXH64_blocksAligned : Nat → XXH64_acc → List Nat → XXH64_acc × List Nat
  | 0, a, l => (a, l)
  | f + 1, a, l =>
      if 32 ≤ l.length then XXH64_blocksAligned f (XXH64_roundBlockAligned a l) (l.drop 32) else (a, l)

/-- Lane initialisation of the 64-bit block path (lines 1134-1137). -/
def XXH64_initAcc (seed : Nat) : XXH64_acc :=
  { v1 := (seed + PRIME64_1 + PRIME64_2) % 2^64
    v2 := (seed + PRIME64_2) % 2^64
    v3 := seed % 2^64
    v4 := (seed + (2^64 - PRIME64_1)) % 2^64 }

/-- Lane combination of the 64-bit family: rotated sum plus four merge
rounds (lines 1157-1161). -/
def XXH64_mergeAcc (a : XXH64_acc) : Nat :=
  let h := (XXH_rotl64 a.v1 1 + XXH_rotl64 a.v2 7 + XXH_rotl64 a.v3 12 + XXH_rotl64 a.v4 18) % 2^64
  XXH64_mergeRound (XXH64_mergeRound (XXH64_mergeRound (XXH64_mergeRound h a.v1) a.v2) a.v3) a.v4

/-- Block phase of XXH64_endian_align; the aligned loop is chosen when
`XXH_FORCE_ALIGN_CHECK` is set and `(size_t)p & 7 == 0` (line 1138), the
latter modelled by `p8`. -/
def XXH64_split (ac p8 : Bool) (input : List Nat) (seed : Nat) : XXH64_acc × List Nat :=
  if ac && p8 then
    XXH64_blocksAligned (input.length + 1) (XXH64_initAcc seed) input
  else
    XXH64_blocks (input.length + 1) (XXH64_initAcc seed) input

/-- The `h64` value of XXH64_endian_align just before `h64 += (U64)len`. -/
def XXH64_blockPart (ac p8 : Bool) (input : List Nat) (seed : Nat) : Nat :=
  if 32 ≤ input.length then XXH64_mergeAcc (XXH64_split ac p8 input seed).1
  else (seed + PRIME64_5) % 2^64

/-- The tail handed to XXH64_finalize (`len & 31` bytes at `p`). -/
def XXH64_tailBytes (ac p8 : Bool) (input : List Nat) (seed : Nat) : List Nat :=
  if 32 ≤ input.length then (XXH64_split ac p8 input seed).2 else input

/-- XXH64_endian_align (portable little-endian mode); note the full 64-bit
length is added: `h64 += (U64) len`. -/
def XXH64_endian_align (ac p8 : Bool) (input : List Nat) (seed : Nat) : Nat :=
  XXH64_finalize ((XXH64_blockPart ac p8 input seed + input.length % 2^64) % 2^64)
    (XXH64_tailBytes ac p8 input seed)

/-- XXH64 public one-shot (lines 1172-1196). -/
def XXH64 (ac p8 : Bool) (input : List Nat) (seed : Nat) : Nat :=
  XXH64_endian_align ac p8 input seed

/-! ## Dual-lane ("alternate") block engine
(XXH32a_XXH64a_endian_align lines 1369-1481, scalar path) -/

/-- The 2 x 4 accumulator lanes of the alternate families (`U32 v[2][4]`). -/
structure XXHa_acc where
  v00 : Nat
  v01 : Nat
  v02 : Nat
  v03 : Nat
  v10 : Nat
  v11 : Nat
  v12 : Nat
  v13 : Nat
deriving DecidableEq

/-- One 32-byte block step of the alternate scalar loop (lines 1464-1475 and
identically lines 1610-1620, 1710-1719): group 0 consumes bytes 0..15,
group 1 bytes 16..31. -/
def XXHa_roundBlock (a : XXHa_acc) (l : List Nat) : XXHa_acc :=
  { v00 := XXH32_round a.v00 (XXH_readLE32 l 0)
    v01 := XXH32_round a.v01 (XXH_readLE32 l 4)
    v02 := XXH32_round a.v02 (XXH_readLE32 l 8)
    v03 := XXH32_round a.v03 (XXH_readLE32 l 12)
    v10 := XXH32_round a.v10 (XXH_readLE32 l 16)
    v11 := XXH32_round a.v11 (XXH_readLE32 l 20)
    v12 := XXH32_round a.v12 (XXH_readLE32 l 24)
    v13 := XXH32_round a.v13 (XXH_readLE32 l 28) }

/-- The one-shot alternate block loop (XXH32a_XXH64a_endian_align):
`do { ... p += 32 } while (p < limit)` with `limit = bEnd - 31`, i.e. it
consumes 32-byte blocks while at least 32 bytes remain. -/
def XXHa_blocks : Nat → XXHa_acc → List Nat → XXHa_acc × List Nat
  | 0, a, l => (a, l)
  | f + 1, a, l =>
      if 32 ≤ l.length then XXHa_blocks f (XXHa_roundBlock a l) (l.drop 32) else (a, l)

/-- The streaming alternate block loop (XXH32a_XXH64a_update_endian lines
1688-1725): `do { ... p += 32 } while (p <= limit)` with
`limit = bEnd - 31`.  The body runs once unconditionally (the caller only
checks `len >= 32` on the whole call, line 1688) and repeats while at least
31 bytes remain, so with 31 remaining bytes it consumes a 32-byte block whose
last byte lies past the end of the input (modelled as byte 0). -/
def XXHa_streamLoop : Nat → XXHa_acc → List Nat → XXHa_acc × List Nat
  | 0, a, l => (a, l)
  | f + 1, a, l =>
      let a2 := XXHa_roundBlock a l
      let l2 := l.drop 32
      if 31 ≤ l2.length then XXHa_streamLoop f a2 l2 else (a2, l2)

/-- Lane initialisation of XXH32a (lines 1529-1532): both groups are seeded
from the same 32-bit seed. -/
def XXH32a_initAcc (seed : Nat) : XXHa_acc :=
  { v00 := (seed + PRIME32_1 + PRIME32_2) % 2^32
    v01 := (seed + PRIME32_2) % 2^32
    v02 := seed % 2^32
    v03 := (seed + (2^32 - PRIME32_1)) % 2^32
    v10 := (seed + PRIME32_1 + PRIME32_2) % 2^32
    v11 := (seed + PRIME32_2) % 2^32
    v12 := seed % 2^32
    v13 := (seed + (2^32 - PRIME32_1)) % 2^32 }

/-- Lane initialisation of XXH64a (lines 1833-1840): group 0 from the low
seed half, group 1 from the high half. -/
def XXH64a_initAcc (seed : Nat) : XXHa_acc :=
  let s0 := seed % 2^32
  let s1 := seed / 2^32 % 2^32
  { v00 := (s0 + PRIME32_1 + PRIME32_2) % 2^32
    v01 := (s0 + PRIME32_2) % 2^32
    v02 := s0 % 2^32
    v03 := (s0 + (2^32 - PRIME32_1)) % 2^32
    v10 := (s1 + PRIME32_1 + PRIME32_2) % 2^32
    v11 := (s1 + PRIME32_2) % 2^32
    v12 := s1 % 2^32
    v13 := (s1 + (2^32 - PRIME32_1)) % 2^32 }

/-- Lane combination of XXH32a (lines 1536-1542): merge the two groups with
XXH32_round, then the standard 32-bit rotated sum. -/
def XXH32a_mergeAcc (a : XXHa_acc) : Nat :=
  let w1 := XXH32_round a.v00 a.v10
  let w2 := XXH32_round a.v01 a.v11
  let w3 := XXH32_round a.v02 a.v12
  let w4 := XXH32_round a.v03 a.v13
  (XXH_rotl32 w1 1 + XXH_rotl32 w2 7 + XXH_rotl32 w3 12 + XXH_rotl32 w4 18) % 2^32

/-- Lane combination of XXH64a (lines 1845-1856): interleave each 32-bit lane
pair into a 64-bit lane, then the standard 64-bit combination. -/
def XXH64a_mergeAcc (a : XXHa_acc) : Nat :=
  XXH64_mergeAcc
    { v1 := a.v00 + a.v10 * 2^32
      v2 := a.v01 + a.v11 * 2^32
      v3 := a.v02 + a.v12 * 2^32
      v4 := a.v03 + a.v13 * 2^32 }

/-- XXH32a public one-shot (lines 1504-1550), scalar portable little-endian
path; the alignment branches read the same bytes with the same loop bounds,
so they are not distinguished here. -/
def XXH32a (input : List Nat) (seed : Nat) : Nat :=
  let len := input.length
  let h :=
    if 32 ≤ len then XXH32a_mergeAcc (XXHa_blocks (len + 1) (XXH32a_initAcc seed) input).1
    else (seed + PRIME32_5) % 2^32
  XXH32_finalize ((h + len % 2^32) % 2^32)
    (if 32 ≤ len then (XXHa_blocks (len + 1) (XXH32a_initAcc seed) input).2 else input)

/-- The `h64` value of XXH64a (lines 1828-1859) just before
`h64 += (U32)len`. -/
def XXH64a_blockPart (input : List Nat) (seed : Nat) : Nat :=
  if 32 ≤ input.length then
    XXH64a_mergeAcc (XXHa_blocks (input.length + 1) (XXH64a_initAcc seed) input).1
  else (seed % 2^64 + PRIME64_5) % 2^64

/-- The tail handed to XXH64_finalize by XXH64a (`len & 31` bytes at `p`). -/
def XXH64a_tailBytes (input : List Nat) (seed : Nat) : List Nat :=
  if 32 ≤ input.length then (XXHa_blocks (input.length + 1) (XXH64a_initAcc seed) input).2
  else input

/-- XXH64a public one-shot (lines 1800-1864); note the length is added as
`(U32)len`, i.e. reduced modulo 2^32. -/
def XXH64a (input : List Nat) (seed : Nat) : Nat :=
  XXH64_finalize ((XXH64a_blockPart input seed + input.length % 2^32) % 2^64)
    (XXH64a_tailBytes input seed)

/-! ## Streaming states

Field sets are taken from their uses in src/xxhash.c (the struct
declarations live in xxhash.h): XXH32_state_t uses total_len_32, large_len,
v1..v4, mem32[4], memsize; XXH64_state_t uses total_len, v1..v4, mem64[4],
memsize; the alternate state uses v[2][4], mem32, memsize, total_len_32,
large_len.  The pending buffer and its byte count are modelled together as
the list `mem` of currently buffered bytes (`memsize = mem.length`);
`large_len` (a 0/1 flag in C) is a `Bool`; the write-protected `reserved`
field is omitted (reset explicitly avoids writing it). -/

structure XXH32_state where
  total_len_32 : Nat
  large_len : Bool
  v1 : Nat
  v2 : Nat
  v3 : Nat
  v4 : Nat
  mem : List Nat
deriving DecidableEq

structure XXH64_state where
  total_len : Nat
  v1 : Nat
  v2 : Nat
  v3 : Nat
  v4 : Nat
  mem : List Nat
deriving DecidableEq

structure XXHa_state where
  total_len_32 : Nat
  large_len : Bool
  v00 : Nat
  v01 : Nat
  v02 : Nat
  v03 : Nat
  v10 : Nat
  v11 : Nat
  v12 : Nat
  v13 : Nat
  mem : List Nat
deriving DecidableEq

/-- XXH32_reset (lines 670-681): zero the state, seed the lanes. -/
def XXH32_resetState (seed : Nat) : XXH32_state :=
  let a := XXH32_initAcc seed
  { total_len_32 := 0, large_len := false, v1 := a.v1, v2 := a.v2, v3 := a.v3, v4 := a.v4,
    mem := [] }

/-- XXH64_reset (lines 1215-1226). -/
def XXH64_resetState (seed : Nat) : XXH64_state :=
  let a := XXH64_initAcc seed
  { total_len := 0, v1 := a.v1, v2 := a.v2, v3 := a.v3, v4 := a.v4, mem := [] }

/-- XXH32a_reset (lines 1571-1582): both lane groups from the same seed. -/
def XXH32a_resetState (seed : Nat) : XXHa_state :=
  let a := XXH32a_initAcc seed
  { total_len_32 := 0, large_len := false,
    v00 := a.v00, v01 := a.v01, v02 := a.v02, v03 := a.v03,
    v10 := a.v10, v11 := a.v11, v12 := a.v12, v13 := a.v13, mem := [] }

/-- XXH64a_reset (lines 1884-1905): seed halves distributed over the groups. -/
def XXH64a_resetState (seed : Nat) : XXHa_state :=
  let a := XXH64a_initAcc seed
  { total_len_32 := 0, large_len := false,
    v00 := a.v00, v01 := a.v01, v02 := a.v02, v03 := a.v03,
    v10 := a.v10, v11 := a.v11, v12 := a.v12, v13 := a.v13, mem := [] }

/-! ## Streaming updates (non-null data path) -/

/-- XXH32_update_endian (lines 684-761), body for non-null input, portable
little-endian mode.  The aligned variant of its inner loop (line 728) reads
the same bytes with the same bounds and is therefore not distinguished. -/
def XXH32_updateData (s : XXH32_state) (data : List Nat) : XXH32_state :=
  let len := data.length
  let total := (s.total_len_32 + len) % 2^32
  let large := s.large_len || decide (16 ≤ len) || decide (16 ≤ total)
  if s.mem.length + len < 16 then
    { s with total_len_32 := total, large_len := large, mem := s.mem ++ data }
  else
    let acc0 : XXH32_acc := ⟨s.v1, s.v2, s.v3, s.v4⟩
    let acc1 := if s.mem.length = 0 then acc0
                else XXH32_roundBlock acc0 (s.mem ++ data.take (16 - s.mem.length))
    let rest := if s.mem.length = 0 then data else data.drop (16 - s.mem.length)
    let br := XXH32_blocks (rest.length + 1) acc1 rest
    { total_len_32 := total, large_len := large,
      v1 := br.1.v1, v2 := br.1.v2, v3 := br.1.v3, v4 := br.1.v4, mem := br.2 }

/-- XXH64_update_endian (lines 1228-1296), body for non-null input. -/
def XXH64_updateData (s : XXH64_state) (data : List Nat) : XXH64_state :=
  let len := data.length
  let total := (s.total_len + len) % 2^64
  if s.mem.length + len < 32 then
    { s with total_len := total, mem := s.mem ++ data }
  else
    let acc0 : XXH64_acc := ⟨s.v1, s.v2, s.v3, s.v4⟩
    let acc1 := if s.mem.length = 0 then acc0
                else XXH64_roundBlock acc0 (s.mem ++ data.take (32 - s.mem.length))
    let rest := if s.mem.length = 0 then data else data.drop (32 - s.mem.length)
    let br := XXH64_blocks (rest.length + 1) acc1 rest
    { total_len := total,
      v1 := br.1.v1, v2 := br.1.v2, v3 := br.1.v3, v4 := br.1.v4, mem := br.2 }

/-- XXH32a_XXH64a_update_endian (lines 1585-1734), body for non-null input,
scalar portable little-endian path (shared by XXH32a and XXH64a).  Note the
block loop is entered whenever the call's own `len >= 32` (line 1688) and
then runs `XXHa_streamLoop`, whose do-while bound over-consumes by one block
when 31 bytes remain. -/
def XXHa_updateData (s : XXHa_state) (data : List Nat) : XXHa_state :=
  let len := data.length
  let total := (s.total_len_32 + len) % 2^32
  let large := s.large_len || decide (32 ≤ len) || decide (32 ≤ total)
  if s.mem.length + len < 32 then
    { s with total_len_32 := total, large_len := large, mem := s.mem ++ data }
  else
    let acc0 : XXHa_acc := ⟨s.v00, s.v01, s.v02, s.v03, s.v10, s.v11, s.v12, s.v13⟩
    let acc1 := if s.mem.length = 0 then acc0
                else XXHa_roundBlock acc0 (s.mem ++ data.take (32 - s.mem.length))
    let rest := if s.mem.length = 0 then data else data.drop (32 - s.mem.length)
    let br := if 32 ≤ len then XXHa_streamLoop (rest.length + 1) acc1 rest else (acc1, rest)
    { total_len_32 := total, large_len := large,
      v00 := br.1.v00, v01 := br.1.v01, v02 := br.1.v02, v03 := br.1.v03,
      v10 := br.1.v10, v11 := br.1.v11, v12 := br.1.v12, v13 := br.1.v13, mem := br.2 }

/-! ## Update entry points with null handling (error taxonomy) -/

inductive XXH_errorcode where
  | XXH_OK
  | XXH_ERROR
deriving DecidableEq

/-- XXH32_update null handling (lines 687-692): `acceptNull` models
`XXH_ACCEPT_NULL_INPUT_POINTER`; `none` models a null input pointer.  A null
pointer is rejected (or accepted as empty) before any state mutation. -/
def XXH32_update (acceptNull : Bool) (s : XXH32_state) (input : Option (List Nat)) :
    XXH_errorcode × XXH32_state :=
  match input with
  | none => if acceptNull then (XXH_errorcode.XXH_OK, s) else (XXH_errorcode.XXH_ERROR, s)
  | some d => (XXH_errorcode.XXH_OK, XXH32_updateData s d)

/-- XXH64_update null handling (lines 1231-1236). -/
def XXH64_update (acceptNull : Bool) (s : XXH64_state) (input : Option (List Nat)) :
    XXH_errorcode × XXH64_state :=
  match input with
  | none => if acceptNull then (XXH_errorcode.XXH_OK, s) else (XXH_errorcode.XXH_ERROR, s)
  | some d => (XXH_errorcode.XXH_OK, XXH64_updateData s d)

/-- XXH32a/XXH64a update null handling (lines 1588-1593). -/
def XXHa_update (acceptNull : Bool) (s : XXHa_state) (input : Option (List Nat)) :
    XXH_errorcode × XXHa_state :=
  match input with
  | none => if acceptNull then (XXH_errorcode.XXH_OK, s) else (XXH_errorcode.XXH_ERROR, s)
  | some d => (XXH_errorcode.XXH_OK, XXHa_updateData s d)

/-! ## Digests -/

/-- XXH32_digest_endian (lines 775-792): a pure read of the state. -/
def XXH32_digest_endian (s : XXH32_state) : Nat :=
  let h :=
    if s.large_len then
      (XXH_rotl32 s.v1 1 + XXH_rotl32 s.v2 7 + XXH_rotl32 s.v3 12 + XXH_rotl32 s.v4 18) % 2^32
    else (s.v3 + PRIME32_5) % 2^32
  XXH32_finalize ((h + s.total_len_32) % 2^32) s.mem

/-- The `h64` value of XXH64_digest_endian (lines 1308-1330) before
`h64 += (U64) state->total_len`. -/
def XXH64_digest_core (s : XXH64_state) : Nat :=
  if 32 ≤ s.total_len then XXH64_mergeAcc ⟨s.v1, s.v2, s.v3, s.v4⟩
  else (s.v3 + PRIME64_5) % 2^64

/-- XXH64_digest_endian: adds the full 64-bit running length, then finalizes
over the buffered tail (`total_len & 31 = mem.length` on reachable states). -/
def XXH64_digest_endian (s : XXH64_state) : Nat :=
  XXH64_finalize ((XXH64_digest_core s + s.total_len % 2^64) % 2^64) s.mem

/-- XXH32a_digest_endian (lines 1748-1768). -/
def XXH32a_digest_endian (s : XXHa_state) : Nat :=
  let h :=
    if s.large_len then
      XXH32a_mergeAcc ⟨s.v00, s.v01, s.v02, s.v03, s.v10, s.v11, s.v12, s.v13⟩
    else (s.v02 + PRIME32_5) % 2^32
  XXH32_finalize ((h + s.total_len_32) % 2^32) s.mem

/-- The `h64` value of XXH64a_digest_endian (lines 1912-1939) before
`h64 += (U64) state->total_len_32`. -/
def XXH64a_digest_core (s : XXHa_state) : Nat :=
  if s.large_len then
    XXH64a_mergeAcc ⟨s.v00, s.v01, s.v02, s.v03, s.v10, s.v11, s.v12, s.v13⟩
  else (s.v02 + s.v12 * 2^32 + PRIME64_5) % 2^64

/-- XXH64a_digest_endian: adds the 32-bit running total `total_len_32`, then
finalizes over the buffered tail. -/
def XXH64a_digest_endian (s : XXHa_state) : Nat :=
  XXH64_finalize ((XXH64a_digest_core s + s.total_len_32) % 2^64) s.mem

/-- XXH32_copyState (lines 665-668): a byte-wise copy of the whole struct,
i.e. the state value itself. -/
def XXH32_copyState (s : XXH32_state) : XXH32_state := s

/-- XXH64_copyState (lines 1210-1213). -/
def XXH64_copyState (s : XXH64_state) : XXH64_state := s

/-! ## Administrative semantics used by the claims -/

/-- Streaming operations observable by a caller between reset and destroy. -/
inductive XXH_streamOp where
  | upd : List Nat → XXH_streamOp
  | dig : XXH_streamOp

/-- One step of the 32-bit streaming API: update mutates the state, digest is
a read (the C function takes a `const XXH32_state_t*`) that appends its
return value to the observed output list. -/
def XXH32_runStep : XXH32_state × List Nat → XXH_streamOp → XXH32_state × List Nat
  | (s, out), XXH_streamOp.upd d => (XXH32_updateData s d, out)
  | (s, out), XXH_streamOp.dig => (s, out ++ [XXH32_digest_endian s])

/-- Run a list of streaming operations from a state, collecting digests. -/
def XXH32_run (s : XXH32_state) (ops : List XXH_streamOp) : XXH32_state × List Nat :=
  ops.foldl XXH32_runStep (s, [])

/-- One step of the 64-bit streaming API. -/
def XXH64_runStep : XXH64_state × List Nat → XXH_streamOp → XXH64_state × List Nat
  | (s, out), XXH_streamOp.upd d => (XXH64_updateData s d, out)
  | (s, out), XXH_streamOp.dig => (s, out ++ [XXH64_digest_endian s])

/-- Run a list of 64-bit streaming operations. -/
def XXH64_run (s : XXH64_state) (ops : List XXH_streamOp) : XXH64_state × List Nat :=
  ops.foldl XXH64_runStep (s, [])

/-- Reset and successful-update calls, for state invariants. -/
inductive XXH_resetUpdOp where
  | rst : Nat → XXH_resetUpdOp
  | upd : List Nat → XXH_resetUpdOp

def XXH32_applyOp (s : XXH32_state) : XXH_resetUpdOp → XXH32_state
  | XXH_resetUpdOp.rst seed => XXH32_resetState seed
  | XXH_resetUpdOp.upd d => XXH32_updateData s d

def XXH64_applyOp (s : XXH64_state) : XXH_resetUpdOp → XXH64_state
  | XXH_resetUpdOp.rst seed => XXH64_resetState seed
  | XXH_resetUpdOp.upd d => XXH64_updateData s d

def XXH32a_applyOp (s : XXHa_state) : XXH_resetUpdOp → XXHa_state
  | XXH_resetUpdOp.rst seed => XXH32a_resetState seed
  | XXH_resetUpdOp.upd d => XXHa_updateData s d

def XXH64a_applyOp (s : XXHa_state) : XXH_resetUpdOp → XXHa_state
  | XXH_resetUpdOp.rst seed => XXH64a_resetState seed
  | XXH_resetUpdOp.upd d => XXHa_updateData s d

/-- Two states advanced side by side; the first is updated, the second kept.
Models two separate state structs after XXH32_copyState. -/
def XXH32_pairUpdA (w : XXH32_state × XXH32_state) (d : List Nat) : XXH32_state × XXH32_state :=
  (XXH32_updateData w.1 d, w.2)

def XXH32_pairUpdB (w : XXH32_state × XXH32_state) (d : List Nat) : XXH32_state × XXH32_state :=
  (w.1, XXH32_updateData w.2 d)

def XXH64_pairUpdA (w : XXH64_state × XXH64_state) (d : List Nat) : XXH64_state × XXH64_state :=
  (XXH64_updateData w.1 d, w.2)

def XXH64_pairUpdB (w : XXH64_state × XXH64_state) (d : List Nat) : XXH64_state × XXH64_state :=
  (w.1, XXH64_updateData w.2 d)

/-- The streaming state reached after consuming `data` since reset. -/
def XXH32_stateOf (data : List Nat) (seed : Nat) : XXH32_state :=
  { total_len_32 := data.length % 2^32
    large_len := decide (16 ≤ data.length)
    v1 := (XXH32_blocks (data.length + 1) (XXH32_initAcc seed) data).1.v1
    v2 := (XXH32_blocks (data.length + 1) (XXH32_initAcc seed) data).1.v2
    v3 := (XXH32_blocks (data.length + 1) (XXH32_initAcc seed) data).1.v3
    v4 := (XXH32_blocks (data.length + 1) (XXH32_initAcc seed) data).1.v4
    mem := (XXH32_blocks (data.length + 1) (XXH32_initAcc seed) data).2 }

/-- The 64-bit streaming state reached after consuming `data` since reset. -/
def XXH64_stateOf (data : List Nat) (seed : Nat) : XXH64_state :=
  { total_len := data.length % 2^64
    v1 := (XXH64_blocks (data.length + 1) (XXH64_initAcc seed) data).1.v1
    v2 := (XXH64_blocks (data.length + 1) (XXH64_initAcc seed) data).1.v2
    v3 := (XXH64_blocks (data.length + 1) (XXH64_initAcc seed) data).1.v3
    v4 := (XXH64_blocks (data.length + 1) (XXH64_initAcc seed) data).1.v4
    mem := (XXH64_blocks (data.length + 1) (XXH64_initAcc seed) data).2 }

/-! ## Helper lemmas -/

theorem foldl_pres {σ α : Type} (P : σ → Prop) (f : σ → α → σ)
    (hf : ∀ s a, P s → P (f s a)) :
    ∀ (l : List α) (s : σ), P s → P (l.foldl f s) := by
  intro l
  induction l with
  | nil => intro s hs; exact hs
  | cons a t ih => intro s hs; exact ih (f s a) (hf s a hs)

theorem XXH32_roundBlockAligned_eq (a : XXH32_acc) (l : List Nat) :
    XXH32_roundBlockAligned a l = XXH32_roundBlock a l := rfl

theorem XXH64_roundBlockAligned_eq (a : XXH64_acc) (l : List Nat) :
    XXH64_roundBlockAligned a l = XXH64_roundBlock a l := rfl

theorem XXH32_blocksAligned_eq :
    ∀ (f : Nat) (a : XXH32_acc) (l : List Nat),
      XXH32_blocksAligned f a l = XXH32_blocks f a l := by
  intro f
  induction f with
  | zero => intro a l; rfl
  | succ g ih =>
      intro a l
      simp only [XXH32_blocksAligned, XXH32_blocks]
      by_cases h : 16 ≤ l.length
      · rw [if_pos h, if_pos h, XXH32_roundBlockAligned_eq, ih]
      · rw [if_neg h, if_neg h]

theorem XXH64_blocksAligned_eq :
    ∀ (f : Nat) (a : XXH64_acc) (l : List Nat),
      XXH64_blocksAligned f a l = XXH64_blocks f a l := by
  intro f
  induction f with
  | zero => intro a l; rfl
  | succ g ih =>
      intro a l
      simp only [XXH64_blocksAligned, XXH64_blocks]
      by_cases h : 32 ≤ l.length
      · rw [if_pos h, if_pos h, XXH64_roundBlockAligned_eq, ih]
      · rw [if_neg h, if_neg h]

theorem XXH32_split_eq (ac : Bool) (al : XXH_alignment) (input : List Nat) (seed : Nat) :
    XXH32_split ac al input seed
      = XXH32_blocks (input.length + 1) (XXH32_initAcc seed) input := by
  unfold XXH32_split
  split
  · exact XXH32_blocksAligned_eq _ _ _
  · rfl

theorem XXH64_split_eq (ac p8 : Bool) (input : List Nat) (seed : Nat) :
    XXH64_split ac p8 input seed
      = XXH64_blocks (input.length + 1) (XXH64_initAcc seed) input := by
  unfold XXH64_split
  split
  · exact XXH64_blocksAligned_eq _ _ _
  · rfl

theorem XXH32_blocks_tail_lt :
    ∀ (f : Nat) (a : XXH32_acc) (l : List Nat),
      l.length < f → ((XXH32_blocks f a l).2).length < 16 := by
  intro f
  induction f with
  | zero => intro a l h; omega
  | succ g ih =>
      intro a l h
      simp only [XXH32_blocks]
      by_cases h16 : 16 ≤ l.length
      · rw [if_pos h16]
        exact ih _ _ (by simp only [List.length_drop]; omega)
      · rw [if_neg h16]
        show l.length < 16
        omega

theorem XXH64_blocks_tail_lt :
    ∀ (f : Nat) (a : XXH64_acc) (l : List Nat),
      l.length < f → ((XXH64_blocks f a l).2).length < 32 := by
  intro f
  induction f with
  | zero => intro a l h; omega
  | succ g ih =>
      intro a l h
      simp only [XXH64_blocks]
      by_cases h32 : 32 ≤ l.length
      · rw [if_pos h32]
        exact ih _ _ (by simp only [List.length_drop]; omega)
      · rw [if_neg h32]
        show l.length < 32
        omega

theorem XXHa_streamLoop_tail_lt :
    ∀ (f : Nat) (a : XXHa_acc) (l : List Nat),
      l.length < f → ((XXHa_streamLoop f a l).2).length < 32 := by
  intro f
  induction f with
  | zero => intro a l h; omega
  | succ g ih =>
      intro a l h
      simp only [XXHa_streamLoop]
      by_cases h31 : 31 ≤ (l.drop 32).length
      · rw [if_pos h31]
        refine ih _ _ ?_
        simp only [List.length_drop] at h31 ⊢
        omega
      · rw [if_neg h31]
        show (l.drop 32).length < 32
        simp only [List.length_drop] at h31 ⊢
        omega

theorem XXH32_updateData_mem_lt (s : XXH32_state) (d : List Nat)
    (_h : s.mem.length < 16) : (XXH32_updateData s d).mem.length < 16 := by
  simp only [XXH32_updateData]
  split
  · next hb => simp only [List.length_append]; omega
  · next hb => exact XXH32_blocks_tail_lt _ _ _ (Nat.lt_succ_self _)

theorem XXH64_updateData_mem_lt (s : XXH64_state) (d : List Nat)
    (_h : s.mem.length < 32) : (XXH64_updateData s d).mem.length < 32 := by
  simp only [XXH64_updateData]
  split
  · next hb => simp only [List.length_append]; omega
  · next hb => exact XXH64_blocks_tail_lt _ _ _ (Nat.lt_succ_self _)

theorem XXHa_updateData_mem_lt (s : XXHa_state) (d : List Nat)
    (h : s.mem.length < 32) : (XXHa_updateData s d).mem.length < 32 := by
  simp only [XXHa_updateData]
  split
  · next hb => simp only [List.length_append]; omega
  · next hb =>
      split
      · next hlen => exact XXHa_streamLoop_tail_lt _ _ _ (Nat.lt_succ_self _)
      · next hlen =>
          split
          · next hm => omega
          · next hm => simp only [List.length_drop]; omega

theorem XXHa_updateData_total (s : XXHa_state) (d : List Nat) :
    (XXHa_updateData s d).total_len_32 = (s.total_len_32 + d.length) % 2^32 := by
  simp only [XXHa_updateData]
  split
  · rfl
  · rfl

theorem XXH64_updateData_total (s : XXH64_state) (d : List Nat) :
    (XXH64_updateData s d).total_len = (s.total_len + d.length) % 2^64 := by
  simp only [XXH64_updateData]
  split
  · rfl
  · rfl

theorem XXHa_fold_total :
    ∀ (chunks : List (List Nat)) (s : XXHa_state), s.total_len_32 < 2^32 →
      (chunks.foldl XXHa_updateData s).total_len_32
        = (s.total_len_32 + (chunks.map List.length).sum) % 2^32 := by
  intro chunks
  induction chunks with
  | nil =>
      intro s hs
      simp only [List.foldl_nil, List.map_nil, List.sum_nil, Nat.add_zero]
      exact (Nat.mod_eq_of_lt hs).symm
  | cons c t ih =>
      intro s hs
      simp only [List.foldl_cons, List.map_cons, List.sum_cons]
      rw [ih _ (by rw [XXHa_updateData_total]; exact Nat.mod_lt _ (by norm_num))]
      rw [XXHa_updateData_total, Nat.mod_add_mod, Nat.add_assoc]

theorem XXH64_fold_total :
    ∀ (chunks : List (List Nat)) (s : XXH64_state), s.total_len < 2^64 →
      (chunks.foldl XXH64_updateData s).total_len
        = (s.total_len + (chunks.map List.length).sum) % 2^64 := by
  intro chunks
  induction chunks with
  | nil =>
      intro s hs
      simp only [List.foldl_nil, List.map_nil, List.sum_nil, Nat.add_zero]
      exact (Nat.mod_eq_of_lt hs).symm
  | cons c t ih =>
      intro s hs
      simp only [List.foldl_cons, List.map_cons, List.sum_cons]
      rw [ih _ (by rw [XXH64_updateData_total]; exact Nat.mod_lt _ (by norm_num))]
      rw [XXH64_updateData_total, Nat.mod_add_mod, Nat.add_assoc]

theorem foldl_pairA_snd {σ : Type} (f : σ → List Nat → σ) :
    ∀ (ds : List (List Nat)) (x y : σ),
      (ds.foldl (fun w d => (f w.1 d, w.2)) (x, y)).2 = y := by
  intro ds
  induction ds with
  | nil => intro x y; rfl
  | cons c t ih => intro x y; exact ih _ _

theorem foldl_pairB_fst {σ : Type} (f : σ → List Nat → σ) :
    ∀ (ds : List (List Nat)) (x y : σ),
      (ds.foldl (fun w d => (w.1, f w.2 d)) (x, y)).1 = x := by
  intro ds
  induction ds with
  | nil => intro x y; rfl
  | cons c t ih => intro x y; exact ih _ _

theorem XXH_swap32_lt (x : Nat) : XXH_swap32 x < 2^32 := by
  unfold XXH_swap32
  omega

theorem XXH_swap32_bytes (b0 b1 b2 b3 : Nat)
    (h0 : b0 < 256) (h1 : b1 < 256) (h2 : b2 < 256) (h3 : b3 < 256) :
    XXH_swap32 (b0 + b1 * 2^8 + b2 * 2^16 + b3 * 2^24)
      = b3 + b2 * 2^8 + b1 * 2^16 + b0 * 2^24 := by
  unfold XXH_swap32
  omega

theorem XXH_swap32_invol (h : Nat) (hh : h < 2^32) : XXH_swap32 (XXH_swap32 h) = h := by
  obtain ⟨b0, b1, b2, b3, hb, h0, h1, h2, h3⟩ :
      ∃ b0 b1 b2 b3, h = b0 + b1 * 2^8 + b2 * 2^16 + b3 * 2^24
        ∧ b0 < 256 ∧ b1 < 256 ∧ b2 < 256 ∧ b3 < 256 :=
    ⟨h % 256, h / 2^8 % 256, h / 2^16 % 256, h / 2^24, by omega, by omega, by omega, by omega,
     by omega⟩
  subst hb
  rw [XXH_swap32_bytes b0 b1 b2 b3 h0 h1 h2 h3,
      XXH_swap32_bytes b3 b2 b1 b0 h3 h2 h1 h0]

theorem bytes4_of_u32 (y : Nat) (hy : y < 2^32) :
    XXH_bytes4 (y % 256) (y / 2^8 % 256) (y / 2^16 % 256) (y / 2^24 % 256) = y := by
  unfold XXH_bytes4
  omega

theorem XXH32_roundtrip (h : Nat) (hh : h < 2^32) :
    XXH32_hashFromCanonical (XXH32_canonicalFromHash h) = h := by
  show XXH_swap32 (XXH_readLE32 (XXH32_canonicalFromHash h) 0) = h
  unfold XXH32_canonicalFromHash
  simp only [Nat.mod_eq_of_lt hh]
  have hr : ∀ c0 c1 c2 c3 : Nat, XXH_readLE32 [c0, c1, c2, c3] 0 = XXH_bytes4 c0 c1 c2 c3 :=
    fun _ _ _ _ => rfl
  rw [hr, bytes4_of_u32 _ (XXH_swap32_lt h), XXH_swap32_invol h hh]

theorem XXH_swap64_lt (x : Nat) : XXH_swap64 x < 2^64 := by
  unfold XXH_swap64
  omega

theorem XXH_swap64_bytes (b0 b1 b2 b3 b4 b5 b6 b7 : Nat)
    (h0 : b0 < 256) (h1 : b1 < 256) (h2 : b2 < 256) (h3 : b3 < 256)
    (h4 : b4 < 256) (h5 : b5 < 256) (h6 : b6 < 256) (h7 : b7 < 256) :
    XXH_swap64 (b0 + b1 * 2^8 + b2 * 2^16 + b3 * 2^24 + b4 * 2^32 + b5 * 2^40 + b6 * 2^48 + b7 * 2^56)
      = b7 + b6 * 2^8 + b5 * 2^16 + b4 * 2^24 + b3 * 2^32 + b2 * 2^40 + b1 * 2^48 + b0 * 2^56 := by
  unfold XXH_swap64
  omega

theorem XXH_swap64_invol (h : Nat) (hh : h < 2^64) : XXH_swap64 (XXH_swap64 h) = h := by
  obtain ⟨b0, b1, b2, b3, b4, b5, b6, b7, hb, h0, h1, h2, h3, h4, h5, h6, h7⟩ :
      ∃ b0 b1 b2 b3 b4 b5 b6 b7,
        h = b0 + b1 * 2^8 + b2 * 2^16 + b3 * 2^24 + b4 * 2^32 + b5 * 2^40 + b6 * 2^48 + b7 * 2^56
        ∧ b0 < 256 ∧ b1 < 256 ∧ b2 < 256 ∧ b3 < 256 ∧ b4 < 256 ∧ b5 < 256 ∧ b6 < 256 ∧ b7 < 256 :=
    ⟨h % 256, h / 2^8 % 256, h / 2^16 % 256, h / 2^24 % 256, h / 2^32 % 256, h / 2^40 % 256,
     h / 2^48 % 256, h / 2^56, by omega, by omega, by omega, by omega, by omega, by omega,
     by omega, by omega, by omega⟩
  subst hb
  rw [XXH_swap64_bytes b0 b1 b2 b3 b4 b5 b6 b7 h0 h1 h2 h3 h4 h5 h6 h7,
      XXH_swap64_bytes b7 b6 b5 b4 b3 b2 b1 b0 h7 h6 h5 h4 h3 h2 h1 h0]

theorem bytes8_of_u64 (y : Nat) (hy : y < 2^64) :
    XXH_bytes8 (y % 256) (y / 2^8 % 256) (y / 2^16 % 256) (y / 2^24 % 256)
      (y / 2^32 % 256) (y / 2^40 % 256) (y / 2^48 % 256) (y / 2^56 % 256) = y := by
  unfold XXH_bytes8 XXH_bytes4
  omega

theorem XXH64_roundtrip (h : Nat) (hh : h < 2^64) :
    XXH64_hashFromCanonical (XXH64_canonicalFromHash h) = h := by
  show XXH_swap64 (XXH_readLE64 (XXH64_canonicalFromHash h) 0) = h
  unfold XXH64_canonicalFromHash
  simp only [Nat.mod_eq_of_lt hh]
  have hr : ∀ c0 c1 c2 c3 c4 c5 c6 c7 : Nat,
      XXH_readLE64 [c0, c1, c2, c3, c4, c5, c6, c7] 0 = XXH_bytes8 c0 c1 c2 c3 c4 c5 c6 c7 :=
    fun _ _ _ _ _ _ _ _ => rfl
  rw [hr, bytes8_of_u64 _ (XXH_swap64_lt h), XXH_swap64_invol h hh]

/-! ## Streaming / one-shot equivalence for the base families -/

theorem byteAt_append (p d : List Nat) (i : Nat) (h : i < p.length) :
    byteAt (p ++ d) i = byteAt p i := by
  unfold byteAt
  exact List.getD_append p d 0 i h

theorem XXH_readLE32_append (p d : List Nat) (i : Nat) (h : i + 4 ≤ p.length) :
    XXH_readLE32 (p ++ d) i = XXH_readLE32 p i := by
  unfold XXH_readLE32
  rw [byteAt_append p d i (by omega), byteAt_append p d (i+1) (by omega),
      byteAt_append p d (i+2) (by omega), byteAt_append p d (i+3) (by omega)]

theorem XXH32_roundBlock_append (a : XXH32_acc) (p d : List Nat) (h : 16 ≤ p.length) :
    XXH32_roundBlock a (p ++ d) = XXH32_roundBlock a p := by
  unfold XXH32_roundBlock
  rw [XXH_readLE32_append p d 0 (by omega), XXH_readLE32_append p d 4 (by omega),
      XXH_readLE32_append p d 8 (by omega), XXH_readLE32_append p d 12 (by omega)]

theorem XXH32_blocks_fuel :
    ∀ (f g : Nat) (a : XXH32_acc) (l : List Nat), l.length < f → l.length < g →
      XXH32_blocks f a l = XXH32_blocks g a l := by
  intro f
  induction f with
  | zero => intro g a l hf hg; omega
  | succ f2 ih =>
      intro g a l hf hg
      cases g with
      | zero => omega
      | succ g2 =>
          simp only [XXH32_blocks]
          by_cases h16 : 16 ≤ l.length
          · rw [if_pos h16, if_pos h16]
            exact ih g2 _ _ (by simp only [List.length_drop]; omega)
              (by simp only [List.length_drop]; omega)
          · rw [if_neg h16, if_neg h16]

theorem XXH32_blocks_append (d : List Nat) :
    ∀ (n : Nat) (p : List Nat) (a : XXH32_acc), p.length ≤ n →
      XXH32_blocks ((p ++ d).length + 1) a (p ++ d)
        = XXH32_blocks (((XXH32_blocks (p.length + 1) a p).2 ++ d).length + 1)
            (XXH32_blocks (p.length + 1) a p).1
            ((XXH32_blocks (p.length + 1) a p).2 ++ d) := by
  intro n
  induction n with
  | zero =>
      intro p a hp
      have hp0 : p = [] := List.length_eq_zero.mp (by omega)
      subst hp0
      rfl
  | succ m ih =>
      intro p a hp
      by_cases h16 : 16 ≤ p.length
      · have hstep : XXH32_blocks (p.length + 1) a p
            = XXH32_blocks ((p.drop 16).length + 1) (XXH32_roundBlock a p) (p.drop 16) := by
          conv =>
            lhs
            rw [XXH32_blocks]
          rw [if_pos h16]
          exact XXH32_blocks_fuel _ _ _ _ (by simp only [List.length_drop]; omega)
            (by simp only [List.length_drop]; omega)
        have hL : XXH32_blocks ((p ++ d).length + 1) a (p ++ d)
            = XXH32_blocks (((p.drop 16) ++ d).length + 1) (XXH32_roundBlock a p)
                ((p.drop 16) ++ d) := by
          conv =>
            lhs
            rw [XXH32_blocks]
          rw [if_pos (by simp only [List.length_append]; omega)]
          rw [XXH32_roundBlock_append a p d h16]
          have hdrop : (p ++ d).drop 16 = p.drop 16 ++ d := by
            rw [List.drop_append_eq_append_drop]
            have h0 : (16 : Nat) - p.length = 0 := by omega
            rw [h0, List.drop_zero]
          rw [hdrop]
          exact XXH32_blocks_fuel _ _ _ _
            (by simp only [List.length_append, List.length_drop]; omega)
            (by simp only [List.length_append, List.length_drop]; omega)
        rw [hL, hstep]
        exact ih (p.drop 16) (XXH32_roundBlock a p) (by simp only [List.length_drop]; omega)
      · have hnb : XXH32_blocks (p.length + 1) a p = (a, p) := by
          rw [XXH32_blocks]
          rw [if_neg h16]
        rw [hnb]


theorem XXH32_stateOf_nil (seed : Nat) : XXH32_stateOf [] seed = XXH32_resetState seed := rfl

theorem XXH32_large_eq (P D : Nat) :
    (decide (16 ≤ P) || decide (16 ≤ D) || decide (16 ≤ (P % 2^32 + D) % 2^32))
      = decide (16 ≤ P + D) := by
  by_cases h1 : 16 ≤ P <;> by_cases h2 : 16 ≤ D <;> simp [h1, h2] <;> omega

theorem XXH32_update_stateOf (p d : List Nat) (seed : Nat) :
    XXH32_updateData (XXH32_stateOf p seed) d = XXH32_stateOf (p ++ d) seed := by
  have htail : ((XXH32_blocks (p.length + 1) (XXH32_initAcc seed) p).2).length < 16 :=
    XXH32_blocks_tail_lt _ _ _ (Nat.lt_succ_self _)
  have happ := XXH32_blocks_append d p.length p (XXH32_initAcc seed) (le_refl _)
  simp only [XXH32_updateData, XXH32_stateOf]
  set a1 := (XXH32_blocks (p.length + 1) (XXH32_initAcc seed) p).1 with hA
  set t := (XXH32_blocks (p.length + 1) (XXH32_initAcc seed) p).2 with hT
  have heta : (⟨a1.v1, a1.v2, a1.v3, a1.v4⟩ : XXH32_acc) = a1 := rfl
  rw [heta]
  by_cases hbuf : t.length + d.length < 16
  · rw [if_pos hbuf, happ]
    have hno : XXH32_blocks ((t ++ d).length + 1) a1 (t ++ d) = (a1, t ++ d) := by
      rw [XXH32_blocks]
      rw [if_neg (by simp only [List.length_append]; omega)]
    rw [hno]
    simp only [List.length_append]
    congr 1
    · rw [Nat.mod_add_mod]
    · exact XXH32_large_eq _ _
  · rw [if_neg hbuf]
    by_cases ht0 : t.length = 0
    · rw [if_pos ht0, if_pos ht0, happ]
      have ht : t = [] := List.length_eq_zero.mp ht0
      rw [ht, List.nil_append]
      simp only [List.length_append]
      congr 1
      · rw [Nat.mod_add_mod]
      · exact XXH32_large_eq _ _
    · rw [if_neg ht0, if_neg ht0, happ]
      have hstep : XXH32_blocks ((t ++ d).length + 1) a1 (t ++ d)
          = XXH32_blocks ((d.drop (16 - t.length)).length + 1)
              (XXH32_roundBlock a1 (t ++ d.take (16 - t.length))) (d.drop (16 - t.length)) := by
        conv =>
          lhs
          rw [XXH32_blocks]
        rw [if_pos (by simp only [List.length_append]; omega)]
        have hsplit : t ++ d = (t ++ d.take (16 - t.length)) ++ d.drop (16 - t.length) := by
          rw [List.append_assoc, List.take_append_drop]
        have hround : XXH32_roundBlock a1 (t ++ d)
            = XXH32_roundBlock a1 (t ++ d.take (16 - t.length)) := by
          conv =>
            lhs
            rw [hsplit]
          exact XXH32_roundBlock_append _ _ _
            (by simp only [List.length_append, List.length_take]; omega)
        have hdrop : (t ++ d).drop 16 = d.drop (16 - t.length) := by
          rw [List.drop_append_eq_append_drop]
          have h1 : t.drop 16 = [] := List.drop_eq_nil_of_le (by omega)
          rw [h1, List.nil_append]
        rw [hround, hdrop]
        exact XXH32_blocks_fuel _ _ _ _
          (by simp only [List.length_append, List.length_drop]; omega)
          (by simp only [List.length_drop]; omega)
      rw [hstep]
      simp only [List.length_append]
      congr 1
      · rw [Nat.mod_add_mod]
      · exact XXH32_large_eq _ _

theorem XXH32_digest_stateOf (data : List Nat) (seed : Nat) :
    XXH32_digest_endian (XXH32_stateOf data seed)
      = XXH32_endian_align false XXH_alignment.unaligned data seed := by
  simp only [XXH32_digest_endian, XXH32_stateOf, XXH32_endian_align, XXH32_blockPart,
    XXH32_tailBytes, XXH32_split_eq]
  by_cases h16 : 16 ≤ data.length
  · simp [h16]
  · have hno : XXH32_blocks (data.length + 1) (XXH32_initAcc seed) data
        = (XXH32_initAcc seed, data) := by
      rw [XXH32_blocks]
      rw [if_neg h16]
    simp [h16, hno]
    have hv3 : (XXH32_initAcc seed).v3 = seed % 2^32 := rfl
    rw [hv3]
    congr 1
    omega

/-- Streaming/one-shot equivalence for XXH32: reset, update with B[0:k],
update with B[k:], digest equals the one-shot hash, for every split point k
and every alignment configuration. -/
theorem XXH32_streaming_oneshot (seed k : Nat) (data : List Nat) (ac pa : Bool) :
    XXH32_digest_endian
        (XXH32_updateData (XXH32_updateData (XXH32_resetState seed) (List.take k data))
          (List.drop k data))
      = XXH32 ac pa data seed := by
  rw [← XXH32_stateOf_nil, XXH32_update_stateOf, XXH32_update_stateOf, List.nil_append,
    List.take_append_drop, XXH32_digest_stateOf]
  simp only [XXH32, XXH32_endian_align, XXH32_blockPart, XXH32_tailBytes, XXH32_split_eq]

theorem XXH_readLE64_append (p d : List Nat) (i : Nat) (h : i + 8 ≤ p.length) :
    XXH_readLE64 (p ++ d) i = XXH_readLE64 p i := by
  unfold XXH_readLE64
  rw [byteAt_append p d i (by omega), byteAt_append p d (i+1) (by omega),
      byteAt_append p d (i+2) (by omega), byteAt_append p d (i+3) (by omega),
      byteAt_append p d (i+4) (by omega), byteAt_append p d (i+5) (by omega),
      byteAt_append p d (i+6) (by omega), byteAt_append p d (i+7) (by omega)]

theorem XXH64_roundBlock_append (a : XXH64_acc) (p d : List Nat) (h : 32 ≤ p.length) :
    XXH64_roundBlock a (p ++ d) = XXH64_roundBlock a p := by
  unfold XXH64_roundBlock
  rw [XXH_readLE64_append p d 0 (by omega), XXH_readLE64_append p d 8 (by omega),
      XXH_readLE64_append p d 16 (by omega), XXH_readLE64_append p d 24 (by omega)]

theorem XXH64_blocks_fuel :
    ∀ (f g : Nat) (a : XXH64_acc) (l : List Nat), l.length < f → l.length < g →
      XXH64_blocks f a l = XXH64_blocks g a l := by
  intro f
  induction f with
  | zero => intro g a l hf hg; omega
  | succ f2 ih =>
      intro g a l hf hg
      cases g with
      | zero => omega
      | succ g2 =>
          simp only [XXH64_blocks]
          by_cases h32 : 32 ≤ l.length
          · rw [if_pos h32, if_pos h32]
            exact ih g2 _ _ (by simp only [List.length_drop]; omega)
              (by simp only [List.length_drop]; omega)
          · rw [if_neg h32, if_neg h32]

theorem XXH64_blocks_append (d : List Nat) :
    ∀ (n : Nat) (p : List Nat) (a : XXH64_acc), p.length ≤ n →
      XXH64_blocks ((p ++ d).length + 1) a (p ++ d)
        = XXH64_blocks (((XXH64_blocks (p.length + 1) a p).2 ++ d).length + 1)
            (XXH64_blocks (p.length + 1) a p).1
            ((XXH64_blocks (p.length + 1) a p).2 ++ d) := by
  intro n
  induction n with
  | zero =>
      intro p a hp
      have hp0 : p = [] := List.length_eq_zero.mp (by omega)
      subst hp0
      rfl
  | succ m ih =>
      intro p a hp
      by_cases h32 : 32 ≤ p.length
      · have hstep : XXH64_blocks (p.length + 1) a p
            = XXH64_blocks ((p.drop 32).length + 1) (XXH64_roundBlock a p) (p.drop 32) := by
          conv =>
            lhs
            rw [XXH64_blocks]
          rw [if_pos h32]
          exact XXH64_blocks_fuel _ _ _ _ (by simp only [List.length_drop]; omega)
            (by simp only [List.length_drop]; omega)
        have hL : XXH64_blocks ((p ++ d).length + 1) a (p ++ d)
            = XXH64_blocks (((p.drop 32) ++ d).length + 1) (XXH64_roundBlock a p)
                ((p.drop 32) ++ d) := by
          conv =>
            lhs
            rw [XXH64_blocks]
          rw [if_pos (by simp only [List.length_append]; omega)]
          rw [XXH64_roundBlock_append a p d h32]
          have hdrop : (p ++ d).drop 32 = p.drop 32 ++ d := by
            rw [List.drop_append_eq_append_drop]
            have h0 : (32 : Nat) - p.length = 0 := by omega
            rw [h0, List.drop_zero]
          rw [hdrop]
          exact XXH64_blocks_fuel _ _ _ _
            (by simp only [List.length_append, List.length_drop]; omega)
            (by simp only [List.length_append, List.length_drop]; omega)
        rw [hL, hstep]
        exact ih (p.drop 32) (XXH64_roundBlock a p) (by simp only [List.length_drop]; omega)
      · have hnb : XXH64_blocks (p.length + 1) a p = (a, p) := by
          rw [XXH64_blocks]
          rw [if_neg h32]
        rw [hnb]


theorem XXH64_stateOf_nil (seed : Nat) : XXH64_stateOf [] seed = XXH64_resetState seed := rfl

theorem XXH64_update_stateOf (p d : List Nat) (seed : Nat) :
    XXH64_updateData (XXH64_stateOf p seed) d = XXH64_stateOf (p ++ d) seed := by
  have htail : ((XXH64_blocks (p.length + 1) (XXH64_initAcc seed) p).2).length < 32 :=
    XXH64_blocks_tail_lt _ _ _ (Nat.lt_succ_self _)
  have happ := XXH64_blocks_append d p.length p (XXH64_initAcc seed) (le_refl _)
  simp only [XXH64_updateData, XXH64_stateOf]
  set a1 := (XXH64_blocks (p.length + 1) (XXH64_initAcc seed) p).1 with hA
  set t := (XXH64_blocks (p.length + 1) (XXH64_initAcc seed) p).2 with hT
  have heta : (⟨a1.v1, a1.v2, a1.v3, a1.v4⟩ : XXH64_acc) = a1 := rfl
  rw [heta]
  by_cases hbuf : t.length + d.length < 32
  · rw [if_pos hbuf, happ]
    have hno : XXH64_blocks ((t ++ d).length + 1) a1 (t ++ d) = (a1, t ++ d) := by
      rw [XXH64_blocks]
      rw [if_neg (by simp only [List.length_append]; omega)]
    rw [hno]
    simp only [List.length_append]
    congr 1
    rw [Nat.mod_add_mod]
  · rw [if_neg hbuf]
    by_cases ht0 : t.length = 0
    · rw [if_pos ht0, if_pos ht0, happ]
      have ht : t = [] := List.length_eq_zero.mp ht0
      rw [ht, List.nil_append]
      simp only [List.length_append]
      congr 1
      rw [Nat.mod_add_mod]
    · rw [if_neg ht0, if_neg ht0, happ]
      have hstep : XXH64_blocks ((t ++ d).length + 1) a1 (t ++ d)
          = XXH64_blocks ((d.drop (32 - t.length)).length + 1)
              (XXH64_roundBlock a1 (t ++ d.take (32 - t.length))) (d.drop (32 - t.length)) := by
        conv =>
          lhs
          rw [XXH64_blocks]
        rw [if_pos (by simp only [List.length_append]; omega)]
        have hsplit : t ++ d = (t ++ d.take (32 - t.length)) ++ d.drop (32 - t.length) := by
          rw [List.append_assoc, List.take_append_drop]
        have hround : XXH64_roundBlock a1 (t ++ d)
            = XXH64_roundBlock a1 (t ++ d.take (32 - t.length)) := by
          conv =>
            lhs
            rw [hsplit]
          exact XXH64_roundBlock_append _ _ _
            (by simp only [List.length_append, List.length_take]; omega)
        have hdrop : (t ++ d).drop 32 = d.drop (32 - t.length) := by
          rw [List.drop_append_eq_append_drop]
          have h1 : t.drop 32 = [] := List.drop_eq_nil_of_le (by omega)
          rw [h1, List.nil_append]
        rw [hround, hdrop]
        exact XXH64_blocks_fuel _ _ _ _
          (by simp only [List.length_append, List.length_drop]; omega)
          (by simp only [List.length_drop]; omega)
      rw [hstep]
      simp only [List.length_append]
      congr 1
      rw [Nat.mod_add_mod]

theorem XXH64_digest_stateOf (data : List Nat) (seed : Nat) (h : data.length < 2^64) :
    XXH64_digest_endian (XXH64_stateOf data seed)
      = XXH64_endian_align false false data seed := by
  simp only [XXH64_digest_endian, XXH64_digest_core, XXH64_stateOf, XXH64_endian_align,
    XXH64_blockPart, XXH64_tailBytes, XXH64_split_eq, Nat.mod_eq_of_lt h]
  by_cases h32 : 32 ≤ data.length
  · simp [h32]
  · have hno : XXH64_blocks (data.length + 1) (XXH64_initAcc seed) data
        = (XXH64_initAcc seed, data) := by
      rw [XXH64_blocks]
      rw [if_neg h32]
    simp [h32, hno]
    have hv3 : (XXH64_initAcc seed).v3 = seed % 2^64 := rfl
    rw [hv3]
    congr 1
    omega

/-- Streaming/one-shot equivalence for XXH64, for every split point and
alignment configuration, for inputs of U64-representable length. -/
theorem XXH64_streaming_oneshot (seed k : Nat) (data : List Nat) (ac p8 : Bool)
    (h : data.length < 2^64) :
    XXH64_digest_endian
        (XXH64_updateData (XXH64_updateData (XXH64_resetState seed) (List.take k data))
          (List.drop k data))
      = XXH64 ac p8 data seed := by
  rw [← XXH64_stateOf_nil, XXH64_update_stateOf, XXH64_update_stateOf, List.nil_append,
    List.take_append_drop, XXH64_digest_stateOf data seed h]
  simp only [XXH64, XXH64_endian_align, XXH64_blockPart, XXH64_tailBytes, XXH64_split_eq]

/-! ## Claim theorems -/

/-- C2: for every 32-bit hash value (h < 2^32) and every 64-bit hash value
(h < 2^64), converting to the canonical big-endian byte representation and
back yields exactly the original value. -/
theorem canonical_roundtrip (h : Nat) :
    (h < 2^32 → XXH32_hashFromCanonical (XXH32_canonicalFromHash h) = h)
    ∧ (h < 2^64 → XXH64_hashFromCanonical (XXH64_canonicalFromHash h) = h) :=
  ⟨XXH32_roundtrip h, XXH64_roundtrip h⟩

/-- Witness for C2 at the concrete hash values 0x12345678 and
0x123456789ABCDEF0. -/
theorem canonical_roundtrip_witness :
    (305419896 < 2^32 ∧ XXH32_hashFromCanonical (XXH32_canonicalFromHash 305419896) = 305419896)
    ∧ (1311768467463790320 < 2^64
       ∧ XXH64_hashFromCanonical (XXH64_canonicalFromHash 1311768467463790320)
           = 1311768467463790320) :=
  ⟨⟨by decide, (canonical_roundtrip 305419896).1 (by decide)⟩,
   ⟨by decide, (canonical_roundtrip 1311768467463790320).2 (by decide)⟩⟩

/-- C3: the one-shot hash of the empty input with seed 0 follows the
short-input path `h = seed + PRIME_5`, plus length 0, through zero-length
finalization: it equals the avalanche of PRIME32_5 for the 32-bit family and
the avalanche of PRIME64_5 for the 64-bit family, for every alignment
configuration. -/
theorem empty_input_hash_value : ∀ ac pa : Bool,
    XXH32 ac pa [] 0 = XXH32_avalanche PRIME32_5
    ∧ XXH64 ac pa [] 0 = XXH64_avalanche PRIME64_5 := by
  intro ac pa
  cases ac <;> cases pa <;> exact ⟨by decide, by decide⟩

/-- C6: the dual-lane 64-bit variant XXH64a disagrees with base XXH64 on a
concrete input and seed (the 32-byte input 0,1,...,31 with seed 0), for every
alignment configuration of XXH64: the two families are not bit-compatible. -/
theorem xxh64a_differs_from_xxh64 : ∀ ac p8 : Bool,
    (XXH64a (List.range 32) 0 == XXH64 ac p8 (List.range 32) 0) = false := by
  intro ac p8
  cases ac <;> cases p8 <;> decide

/-- C1 (code defect, concrete evaluation): the streaming computation of the
alternate family is not equivalent to the one-shot hash.  For B = bytes
0..62 (63 bytes), seed 0, split point k = 31, the XXH32a streaming digest
differs from the XXH32a one-shot value: the second update call has
`len = 32 >= 32`, so the streaming block loop runs, and its do-while bound
(`while (p <= limit)` with `limit = bEnd - 31`) consumes a 32-byte block
when only 31 bytes remain, reading one byte past the input (modelled as
byte 0) and leaving the pending buffer empty, whereas the one-shot loop
(`while (p < limit)`) stops and finalizes over the 31-byte tail. -/
theorem xxh32a_streaming_oneshot_mismatch :
    (XXH32a_digest_endian
        (XXHa_updateData (XXHa_updateData (XXH32a_resetState 0) ((List.range 63).take 31))
          ((List.range 63).drop 31))
      == XXH32a (List.range 63) 0) = false := by decide

/-- C4: update returns an error exactly when the input pointer is null and
accept-null-as-empty is disabled; in that error case the state is returned
completely unchanged (the null check precedes any mutation); every non-null
input succeeds; for all three streaming state machines. -/
theorem update_null_error (an : Bool) (s32 : XXH32_state) (s64 : XXH64_state)
    (sa : XXHa_state) (inp : Option (List Nat)) :
    ((XXH32_update an s32 inp).1 = XXH_errorcode.XXH_ERROR ↔ inp = none ∧ an = false)
    ∧ (inp = none → an = false → XXH32_update an s32 inp = (XXH_errorcode.XXH_ERROR, s32))
    ∧ (∀ d, inp = some d → (XXH32_update an s32 inp).1 = XXH_errorcode.XXH_OK)
    ∧ ((XXH64_update an s64 inp).1 = XXH_errorcode.XXH_ERROR ↔ inp = none ∧ an = false)
    ∧ (inp = none → an = false → XXH64_update an s64 inp = (XXH_errorcode.XXH_ERROR, s64))
    ∧ (∀ d, inp = some d → (XXH64_update an s64 inp).1 = XXH_errorcode.XXH_OK)
    ∧ ((XXHa_update an sa inp).1 = XXH_errorcode.XXH_ERROR ↔ inp = none ∧ an = false)
    ∧ (inp = none → an = false → XXHa_update an sa inp = (XXH_errorcode.XXH_ERROR, sa))
    ∧ (∀ d, inp = some d → (XXHa_update an sa inp).1 = XXH_errorcode.XXH_OK) := by
  cases inp <;> cases an <;> simp [XXH32_update, XXH64_update, XXHa_update]

/-- Witness for C4: a concrete rejected null-input call that leaves the
state unchanged, and a concrete accepted calls. -/
theorem update_null_error_witness :
    XXH32_update false (XXH32_resetState 7) none = (XXH_errorcode.XXH_ERROR, XXH32_resetState 7)
    ∧ XXH64_update false (XXH64_resetState 7) none = (XXH_errorcode.XXH_ERROR, XXH64_resetState 7)
    ∧ (XXH32_update true (XXH32_resetState 7) (some [1, 2, 3])).1 = XXH_errorcode.XXH_OK :=
  ⟨(update_null_error false (XXH32_resetState 7) (XXH64_resetState 7) (XXH32a_resetState 7)
      none).2.1 rfl rfl,
   (update_null_error false (XXH32_resetState 7) (XXH64_resetState 7) (XXH32a_resetState 7)
      none).2.2.2.2.1 rfl rfl,
   (update_null_error true (XXH32_resetState 7) (XXH64_resetState 7) (XXH32a_resetState 7)
      (some [1, 2, 3])).2.2.1 [1, 2, 3] rfl⟩

/-- C5: under portable little-endian mode the one-shot hash computed through
the aligned-read code path equals the one computed through the
unaligned-read path, and enabling or disabling the alignment check never
changes the returned value; for the XXH32 and XXH64 cores and public
wrappers. -/
theorem alignment_independent (ac ac2 pa pa2 p82 : Bool) (al al2 : XXH_alignment)
    (p8 : Bool) (input : List Nat) (seed : Nat) :
    XXH32_endian_align ac al input seed = XXH32_endian_align ac2 al2 input seed
    ∧ XXH32 ac pa input seed = XXH32 ac2 pa2 input seed
    ∧ XXH64_endian_align ac p8 input seed = XXH64_endian_align ac2 p82 input seed
    ∧ XXH64 ac p8 input seed = XXH64 ac2 p82 input seed := by
  refine ⟨?_, ?_, ?_, ?_⟩
  · simp only [XXH32_endian_align, XXH32_blockPart, XXH32_tailBytes, XXH32_split_eq]
  · simp only [XXH32, XXH32_endian_align, XXH32_blockPart, XXH32_tailBytes, XXH32_split_eq]
  · simp only [XXH64_endian_align, XXH64_blockPart, XXH64_tailBytes, XXH64_split_eq]
  · simp only [XXH64, XXH64_endian_align, XXH64_blockPart, XXH64_tailBytes, XXH64_split_eq]

/-- C7: from any reachable streaming state (reset followed by an arbitrary
sequence of update and digest operations), running digest twice with no
intervening update returns two identical values and leaves every field of
the state unchanged; for the 32-bit and 64-bit streaming machines. -/
theorem digest_idempotent_and_pure (seed : Nat) (ops : List XXH_streamOp) :
    XXH32_run (XXH32_run (XXH32_resetState seed) ops).1 [XXH_streamOp.dig, XXH_streamOp.dig]
      = ((XXH32_run (XXH32_resetState seed) ops).1,
         [XXH32_digest_endian (XXH32_run (XXH32_resetState seed) ops).1,
          XXH32_digest_endian (XXH32_run (XXH32_resetState seed) ops).1])
    ∧ XXH64_run (XXH64_run (XXH64_resetState seed) ops).1 [XXH_streamOp.dig, XXH_streamOp.dig]
      = ((XXH64_run (XXH64_resetState seed) ops).1,
         [XXH64_digest_endian (XXH64_run (XXH64_resetState seed) ops).1,
          XXH64_digest_endian (XXH64_run (XXH64_resetState seed) ops).1]) :=
  ⟨rfl, rfl⟩

/-- C8: after copying state A to B, B's digest equals A's digest; any
subsequent sequence of updates applied to A leaves B (hence B's eventual
digest) unchanged, and updates applied to B leave A unchanged; for the
32-bit and 64-bit machines. -/
theorem copystate_independent (a32 : XXH32_state) (a64 : XXH64_state)
    (ds es : List (List Nat)) :
    XXH32_digest_endian (XXH32_copyState a32) = XXH32_digest_endian a32
    ∧ (ds.foldl XXH32_pairUpdA (a32, XXH32_copyState a32)).2 = XXH32_copyState a32
    ∧ XXH32_digest_endian (ds.foldl XXH32_pairUpdA (a32, XXH32_copyState a32)).2
        = XXH32_digest_endian a32
    ∧ (es.foldl XXH32_pairUpdB (a32, XXH32_copyState a32)).1 = a32
    ∧ XXH64_digest_endian (XXH64_copyState a64) = XXH64_digest_endian a64
    ∧ (ds.foldl XXH64_pairUpdA (a64, XXH64_copyState a64)).2 = XXH64_copyState a64
    ∧ XXH64_digest_endian (ds.foldl XXH64_pairUpdA (a64, XXH64_copyState a64)).2
        = XXH64_digest_endian a64
    ∧ (es.foldl XXH64_pairUpdB (a64, XXH64_copyState a64)).1 = a64 := by
  have h32A : (ds.foldl XXH32_pairUpdA (a32, XXH32_copyState a32)).2 = XXH32_copyState a32 :=
    foldl_pairA_snd XXH32_updateData ds a32 (XXH32_copyState a32)
  have h32B : (es.foldl XXH32_pairUpdB (a32, XXH32_copyState a32)).1 = a32 :=
    foldl_pairB_fst XXH32_updateData es a32 (XXH32_copyState a32)
  have h64A : (ds.foldl XXH64_pairUpdA (a64, XXH64_copyState a64)).2 = XXH64_copyState a64 :=
    foldl_pairA_snd XXH64_updateData ds a64 (XXH64_copyState a64)
  have h64B : (es.foldl XXH64_pairUpdB (a64, XXH64_copyState a64)).1 = a64 :=
    foldl_pairB_fst XXH64_updateData es a64 (XXH64_copyState a64)
  exact ⟨rfl, h32A, by rw [h32A]; rfl, h32B, rfl, h64A, by rw [h64A]; rfl, h64B⟩

theorem XXH32_applyOp_mem_lt (s : XXH32_state) (op : XXH_resetUpdOp)
    (h : s.mem.length < 16) : (XXH32_applyOp s op).mem.length < 16 := by
  cases op with
  | rst sd => simp [XXH32_applyOp, XXH32_resetState]
  | upd d => exact XXH32_updateData_mem_lt s d h

theorem XXH64_applyOp_mem_lt (s : XXH64_state) (op : XXH_resetUpdOp)
    (h : s.mem.length < 32) : (XXH64_applyOp s op).mem.length < 32 := by
  cases op with
  | rst sd => simp [XXH64_applyOp, XXH64_resetState]
  | upd d => exact XXH64_updateData_mem_lt s d h

theorem XXH32a_applyOp_mem_lt (s : XXHa_state) (op : XXH_resetUpdOp)
    (h : s.mem.length < 32) : (XXH32a_applyOp s op).mem.length < 32 := by
  cases op with
  | rst sd => simp [XXH32a_applyOp, XXH32a_resetState]
  | upd d => exact XXHa_updateData_mem_lt s d h

theorem XXH64a_applyOp_mem_lt (s : XXHa_state) (op : XXH_resetUpdOp)
    (h : s.mem.length < 32) : (XXH64a_applyOp s op).mem.length < 32 := by
  cases op with
  | rst sd => simp [XXH64a_applyOp, XXH64a_resetState]
  | upd d => exact XXHa_updateData_mem_lt s d h

/-- C9: after any sequence of reset and successful update calls, the
pending-byte count is strictly less than one block size: 16 bytes for the
XXH32 machine, 32 bytes for the XXH64 machine and for the alternate-family
machine (under both its 32-bit and 64-bit resets). -/
theorem memsize_invariant (seed : Nat) (ops : List XXH_resetUpdOp) :
    (ops.foldl XXH32_applyOp (XXH32_resetState seed)).mem.length < 16
    ∧ (ops.foldl XXH64_applyOp (XXH64_resetState seed)).mem.length < 32
    ∧ (ops.foldl XXH32a_applyOp (XXH32a_resetState seed)).mem.length < 32
    ∧ (ops.foldl XXH64a_applyOp (XXH64a_resetState seed)).mem.length < 32 := by
  refine ⟨?_, ?_, ?_, ?_⟩
  · exact foldl_pres (fun s => s.mem.length < 16) XXH32_applyOp
      (fun s op hs => XXH32_applyOp_mem_lt s op hs) ops (XXH32_resetState seed)
      (by simp [XXH32_resetState])
  · exact foldl_pres (fun s => s.mem.length < 32) XXH64_applyOp
      (fun s op hs => XXH64_applyOp_mem_lt s op hs) ops (XXH64_resetState seed)
      (by simp [XXH64_resetState])
  · exact foldl_pres (fun s => s.mem.length < 32) XXH32a_applyOp
      (fun s op hs => XXH32a_applyOp_mem_lt s op hs) ops (XXH32a_resetState seed)
      (by simp [XXH32a_resetState])
  · exact foldl_pres (fun s => s.mem.length < 32) XXH64a_applyOp
      (fun s op hs => XXH64a_applyOp_mem_lt s op hs) ops (XXH64a_resetState seed)
      (by simp [XXH64a_resetState])

/-- C10: the XXH64a family folds the consumed length into the hash reduced
modulo 2^32 while base XXH64 folds the full length modulo 2^64: after any
sequence of updates, the XXH64a streaming digest adds its 32-bit running
total, which equals the total consumed length mod 2^32, the XXH64 streaming
digest adds the total length mod 2^64, and the one-shot XXH64a adds
`(U32)len` where one-shot XXH64 adds `(U64)len`. -/
theorem xxh64a_length_mod32 (seed : Nat) (chunks : List (List Nat)) (data : List Nat) :
    XXH64a_digest_endian (chunks.foldl XXHa_updateData (XXH64a_resetState seed))
      = XXH64_finalize
          ((XXH64a_digest_core (chunks.foldl XXHa_updateData (XXH64a_resetState seed))
              + (chunks.map List.length).sum % 2^32) % 2^64)
          (chunks.foldl XXHa_updateData (XXH64a_resetState seed)).mem
    ∧ XXH64_digest_endian (chunks.foldl XXH64_updateData (XXH64_resetState seed))
      = XXH64_finalize
          ((XXH64_digest_core (chunks.foldl XXH64_updateData (XXH64_resetState seed))
              + (chunks.map List.length).sum % 2^64) % 2^64)
          (chunks.foldl XXH64_updateData (XXH64_resetState seed)).mem
    ∧ XXH64a data seed
      = XXH64_finalize ((XXH64a_blockPart data seed + data.length % 2^32) % 2^64)
          (XXH64a_tailBytes data seed)
    ∧ XXH64 false false data seed
      = XXH64_finalize ((XXH64_blockPart false false data seed + data.length % 2^64) % 2^64)
          (XXH64_tailBytes false false data seed) := by
  refine ⟨?_, ?_, rfl, rfl⟩
  · unfold XXH64a_digest_endian
    rw [XXHa_fold_total chunks (XXH64a_resetState seed)
          (by have h0 : (XXH64a_resetState seed).total_len_32 = 0 := rfl; omega)]
    have h0 : (XXH64a_resetState seed).total_len_32 = 0 := rfl
    rw [h0, Nat.zero_add]
  · unfold XXH64_digest_endian
    rw [XXH64_fold_total chunks (XXH64_resetState seed)
          (by have h0 : (XXH64_resetState seed).total_len = 0 := rfl; omega)]
    have h0 : (XXH64_resetState seed).total_len = 0 := rfl
    rw [h0, Nat.zero_add, Nat.mod_mod_of_dvd _ dvd_rfl]

/-! ## Concrete sanity checks against the published xxHash test vectors -/

/-- XXH32 of the empty input with seed 0 is 0x02CC5D05. -/
theorem XXH32_vector_empty : XXH32 false false [] 0 = 46947589 := by decide

/-- XXH64 of the empty input with seed 0 is 0xEF46DB3751D8E999. -/
theorem XXH64_vector_empty : XXH64 false false [] 0 = 17241709254077376921 := by decide

/-- XXH32 of "abc" with seed 0 is 0x32D153FF. -/
theorem XXH32_vector_abc : XXH32 false false [97, 98, 99] 0 = 852579327 := by decide

/-- XXH64 of "abc" with seed 0 is 0x44BC2CF5AD770999. -/
theorem XXH64_vector_abc : XXH64 false false [97, 98, 99] 0 = 4952883123889572249 := by decide

/-- On a 64-byte input (an exact multiple of the block size) the alternate
streaming machine does agree with the one-shot hash: the C1 divergence is
specific to update lengths that leave a 31-byte remainder in the do-while
loop. -/
theorem XXH32a_agrees_at_64 :
    XXH32a_digest_endian (XXHa_updateData (XXH32a_resetState 0) (List.range 64))
      = XXH32a (List.range 64) 0 := by decide
